import Mathlib

/-!
Verification of the globe-visualization frontend (GlobeMap components and
the deck.gl WindLayer) against its natural-language specification.

The mapping-engine state is embedded as an explicit record of registered
sources, layers and the terrain configuration; the component's mutable refs
(highlightDataRef, windSeriesRef, particleArray, show3D, ...) become fields
of an explicit component-state record, and every handler of the source
becomes a pure state-transformer.  Numeric values (bearing, wind speed,
particle coordinates) are modelled as exact rationals standing for the
source's IEEE doubles.  Randomness (Math.random draws) is passed in as
explicit rational parameters constrained to [0,1).
-/

namespace GlobeMap

/-- One entry of the backend wind series (spec: FlowFrame).  Mirrors the
objects of `data.wind_series` consumed by the draw loop. -/
structure FlowFrame where
  direction_deg : ℚ
  speed_ms : ℚ
deriving DecidableEq, Repr

/-- Truncation toward zero, the rounding used by the JavaScript `%`
operator. -/
def ratTrunc (q : ℚ) : ℤ :=
  if 0 ≤ q then ⌊q⌋ else ⌈q⌉

/-- The JavaScript remainder operator `a % b` on numbers:
`a - b * trunc (a / b)`. -/
def jsRem (a b : ℚ) : ℚ :=
  a - b * (ratTrunc (a / b) : ℚ)

/-- The mapping engine's style state, as observed through the interface the
component uses: the registered sources (id plus, for geojson sources, the
feature payload, abstracted to a numeric feature id), the ordered layer
stack, and the terrain configuration set by `setTerrain`. -/
structure MapState where
  sources : List (String × Option ℕ)
  layers : List String
  terrain : Option String
deriving DecidableEq, Repr

/-- Engine `getSource(id)` truthiness. -/
def getSourceB (s : MapState) (id : String) : Bool :=
  decide (id ∈ s.sources.map Prod.fst)

/-- Engine `getLayer(id)` truthiness. -/
def getLayerB (s : MapState) (id : String) : Bool :=
  decide (id ∈ s.layers)

/-- Engine `addSource(id, …)`; the geojson payload, when any, is recorded. -/
def addSource (s : MapState) (id : String) (d : Option ℕ) : MapState :=
  { s with sources := s.sources ++ [(id, d)] }

/-- Engine `removeSource(id)`. -/
def removeSource (s : MapState) (id : String) : MapState :=
  { s with sources := s.sources.filter (fun p => decide (p.1 ≠ id)) }

/-- Engine `addLayer(layer)` with no `beforeId`: appends to the stack. -/
def addLayer (s : MapState) (id : String) : MapState :=
  { s with layers := s.layers ++ [id] }

/-- Insert `id` directly before the first occurrence of `before`; when
`before` is absent the layer lands at the end of the stack. -/
def insertBefore (id before : String) : List String → List String
  | [] => [id]
  | l :: ls => if l = before then id :: l :: ls else l :: insertBefore id before ls

/-- Engine `addLayer(layer, beforeId)`. -/
def addLayerBefore (s : MapState) (id before : String) : MapState :=
  { s with layers := insertBefore id before s.layers }

/-- Engine `removeLayer(id)`. -/
def removeLayer (s : MapState) (id : String) : MapState :=
  { s with layers := s.layers.filter (fun l => decide (l ≠ id)) }

/-- Engine `setTerrain({source, …})`. -/
def setTerrain (s : MapState) (src : String) : MapState :=
  { s with terrain := some src }

/-- The payload of the source registered under `id`, if any. -/
def sourceData (s : MapState) (id : String) : Option (Option ℕ) :=
  (s.sources.find? (fun p => decide (p.1 = id))).map Prod.snd

/-- The guarded removal idiom `map.getLayer(id) && map.removeLayer(id)`. -/
def removeIfLayer (s : MapState) (id : String) : MapState :=
  if getLayerB s id then removeLayer s id else s

/-- `ensureTerrain` of the flow-renderer GlobeMap variant: add the
`mapbox-dem` raster-dem source unless already present, then `setTerrain`. -/
def ensureTerrain (s : MapState) : MapState :=
  setTerrain (if getSourceB s "mapbox-dem" then s else addSource s "mapbox-dem" none)
    "mapbox-dem"

/-- `add3DBuildings`: a no-op when the `3d-buildings` layer already exists
or the `composite` source is missing; otherwise adds the fill-extrusion
layer beneath `waterway-label`. -/
def add3DBuildings (s : MapState) : MapState :=
  if getLayerB s "3d-buildings" || !getSourceB s "composite" then s
  else addLayerBefore s "3d-buildings" "waterway-label"

/-- The removal idiom shared by `addHighlightLayer` and `resetGlobe`:
`["highlight-fill", "highlight-outline"].forEach(id => map.getLayer(id) &&
map.removeLayer(id)); map.getSource("highlight") &&
map.removeSource("highlight")`. -/
def clearHighlightMap (s : MapState) : MapState :=
  if getSourceB (removeIfLayer (removeIfLayer s "highlight-fill") "highlight-outline")
      "highlight" then
    removeSource (removeIfLayer (removeIfLayer s "highlight-fill") "highlight-outline")
      "highlight"
  else removeIfLayer (removeIfLayer s "highlight-fill") "highlight-outline"

/-- `addHighlightLayer(geojson)`: drop any prior highlight layers and
source, then attach the geojson source and the fill and outline layers. -/
def addHighlightLayer (f : ℕ) (s : MapState) : MapState :=
  addLayer (addLayer (addSource (clearHighlightMap s) "highlight" (some f)) "highlight-fill")
    "highlight-outline"

/-- `restoreHighlight`: re-invoke `addHighlightLayer` with the stored
feature when one is present, otherwise do nothing. -/
def restoreHighlight (hd : Option ℕ) (s : MapState) : MapState :=
  match hd with
  | some f => addHighlightLayer f s
  | none => s

/-- Layer id of the three.js custom layer (`flux-3d-particles`). -/
def threeLayerId : String := "flux-3d-particles"

/-- `add3DLayer`: a no-op when the custom layer is already registered,
otherwise registers it beneath `waterway-label`. -/
def add3DLayer (s : MapState) : MapState :=
  if getLayerB s threeLayerId then s else addLayerBefore s threeLayerId "waterway-label"

/-- `remove3DLayer`: removes the custom layer only when registered. -/
def remove3DLayer (s : MapState) : MapState :=
  if getLayerB s threeLayerId then removeLayer s threeLayerId else s

/-- The `style.load` handler registered on map load:
`ensureTerrain(); add3DBuildings(); restoreHighlight();` in that order. -/
def onStyleLoadMap (hd : Option ℕ) (s : MapState) : MapState :=
  restoreHighlight hd (add3DBuildings (ensureTerrain s))

/-- The engine's style state right after a basemap swap: every custom
source and layer is discarded; only engine-native pieces (the `composite`
vector source and the `waterway-label` symbol layer) remain. -/
def freshStyle : MapState :=
  { sources := [("composite", none)], layers := ["waterway-label"], terrain := none }

/-- A screen-space particle of the 2D arrow renderer (spec: Particle).  The
age is rational because the initial seeding draws `Math.random() * 200`. -/
structure Particle where
  lon : ℚ
  lat : ℚ
  age : ℚ
deriving DecidableEq, Repr

/-- The visible-region box returned by `map.getBounds()`. -/
structure Bounds where
  west : ℚ
  east : ℚ
  south : ℚ
  north : ℚ
deriving DecidableEq, Repr

/-- One freshly seeded particle of `init2DArrows`:
uniform position inside the current bounds, age `Math.random() * 200`.
`r1 r2 r3` are the three `Math.random()` draws. -/
def seedParticle (b : Bounds) (r1 r2 r3 : ℚ) : Particle :=
  { lon := b.west + r1 * (b.east - b.west)
    lat := b.south + r2 * (b.north - b.south)
    age := r3 * 200 }

/-- The `Array.from({length: N}, …)` seeding of `init2DArrows` (N = 200 in
the source; the list of random triples determines the count here). -/
def seedParticles (b : Bounds) (rs : List (ℚ × ℚ × ℚ)) : List Particle :=
  rs.map (fun r => seedParticle b r.1 r.2.1 r.2.2)

/-- The per-particle tail of the repaint body: drift the position by the
per-frame displacement (`dlon`/`dlat` stand for the source's
`driftStep*sin(heading)` / `driftStep*cos(heading)`), increment the age,
and once the incremented age exceeds the cap 300 respawn uniformly inside
the current bounds with age 0.  A respawned particle's drifted position is
overwritten, so the drift is folded into each branch. -/
def updateParticle (b : Bounds) (dlon dlat r1 r2 : ℚ) (p : Particle) : Particle :=
  if p.age + 1 > 300 then
    { lon := b.west + r1 * (b.east - b.west)
      lat := b.south + r2 * (b.north - b.south)
      age := 0 }
  else
    { lon := p.lon + dlon, lat := p.lat + dlat, age := p.age + 1 }

/-- The drawn line segment of one particle: canvas start point, the
per-frame heading in degrees and the arrow length.  The source renders the
segment from `(x, y)` to `(x + len*sin(h), y - len*cos(h))` where `h` is
`hdgDeg` converted to radians, so `len` is the segment's Euclidean length
and `hdgDeg` its heading. -/
structure Seg where
  x : ℚ
  y : ℚ
  hdgDeg : ℚ
  len : ℚ
deriving DecidableEq, Repr

/-- The per-frame heading of the 2D arrows:
`((frame.direction_deg + 180) % 360)`, in degrees (the source multiplies by
`Math.PI / 180` right after). -/
def headingDeg (d : ℚ) : ℚ := jsRem (d + 180) 360

/-- The per-frame arrow length: `Math.min(18, speed * 0.5)`. -/
def arrowLen (sp : ℚ) : ℚ := min 18 (sp * (1 / 2))

/-- Result of one repaint of the 2D arrow renderer. -/
structure DrawOut where
  segs : List Seg
  particles : List Particle
  cursor : ℕ
deriving Repr

/-- One repaint of the `draw` closure of `init2DArrows`.  When suppressed
(3D mode) or when no wind series is loaded, the canvas is cleared and
nothing else happens.  Otherwise the frame at `cursor % frames.length` is
selected, every particle is drawn with the same heading and length and
then advanced, and the cursor moves on, wrapping.  `proj` is the engine's
`map.project`, `resp` supplies the two `Math.random()` draws of a
potential respawn per particle index. -/
def drawStep (show3D : Bool) (b : Bounds) (proj : ℚ × ℚ → ℚ × ℚ)
    (dlon dlat : ℚ) (resp : ℕ → ℚ × ℚ) (frames : List FlowFrame)
    (cursor : ℕ) (ps : List Particle) : DrawOut :=
  if show3D || frames.isEmpty then { segs := [], particles := ps, cursor := cursor }
  else
    { segs := ps.map (fun p =>
        { x := (proj (p.lon, p.lat)).1
          y := (proj (p.lon, p.lat)).2
          hdgDeg := headingDeg (frames.getD (cursor % frames.length) ⟨0, 0⟩).direction_deg
          len := arrowLen (frames.getD (cursor % frames.length) ⟨0, 0⟩).speed_ms })
      particles := ((List.range ps.length).zip ps).map (fun iq =>
        updateParticle b dlon dlat (resp iq.1).1 (resp iq.1).2 iq.2)
      cursor := (cursor + 1) % frames.length }

/-- The component's mutable state relevant to the claims: the engine style
state, `highlightDataRef`, `show3D`, `windSeriesRef`, `particleArray`, the
selected city and a counter of boundary fetches issued (network effect
made explicit). -/
structure CState where
  map : MapState
  highlightData : Option ℕ
  show3D : Bool
  windSeries : List FlowFrame
  particles : List Particle
  selectedCity : Option String
  fetchCount : ℕ
deriving DecidableEq, Repr

/-- Success path of `fetchAndDrawBoundary`: one boundary request is issued,
the geojson is cached in `highlightDataRef` and the highlight is drawn. -/
def fetchBoundarySuccess (f : ℕ) (c : CState) : CState :=
  { c with highlightData := some f
           map := addHighlightLayer f c.map
           fetchCount := c.fetchCount + 1 }

/-- `restoreHighlight` at component level: re-attach from the cache when a
feature is stored; no network request is involved. -/
def restoreHighlightC (c : CState) : CState :=
  match c.highlightData with
  | some f => { c with map := addHighlightLayer f c.map }
  | none => c

/-- The component's `style.load` handler
(`ensureTerrain(); add3DBuildings(); restoreHighlight();`). -/
def onStyleLoadC (c : CState) : CState :=
  restoreHighlightC { c with map := add3DBuildings (ensureTerrain c.map) }

/-- A basemap swap followed by the `style.load` handler: the engine
discards all custom sources/layers, then the replay runs synchronously. -/
def styleReloadC (c : CState) : CState :=
  onStyleLoadC { c with map := freshStyle }

/-- `resetGlobe` of the flow-renderer GlobeMap variant: removes the marker
and the highlight layers/source, clears the results and selection and
removes the 3D layer — but leaves `highlightDataRef` untouched. -/
def resetGlobe (c : CState) : CState :=
  { c with
    map := remove3DLayer (clearHighlightMap c.map)
    selectedCity := none }

/-- `resetGlobe` of the chart-only GlobeMap variant: under the
`getSource("highlight")` guard removes the highlight layers and source,
then nulls `highlightDataRef`. -/
def resetGlobeLegacy (c : CState) : CState :=
  { c with
    map :=
      if getSourceB c.map "highlight" then
        removeSource (removeIfLayer (removeIfLayer c.map "highlight-fill") "highlight-outline")
          "highlight"
      else c.map
    highlightData := none
    selectedCity := none }

/-- A basemap swap of the chart-only variant followed by its
`once("styledata", restoreHighlight)` callback. -/
def styleSwapRestoreLegacy (c : CState) : CState :=
  restoreHighlightC { c with map := freshStyle }

/-- Success path of `runSimulation`: store the fetched wind series, then
`show3D ? (remove3DLayer(), add3DLayer()) : init2DArrows()` — the active
renderer is re-initialized, not updated in place.  `rs` are the random
draws of the 2D re-seeding. -/
def runSimulationSuccess (series : List FlowFrame) (b : Bounds)
    (rs : List (ℚ × ℚ × ℚ)) (c : CState) : CState :=
  if c.show3D then
    { c with windSeries := series, map := add3DLayer (remove3DLayer c.map) }
  else
    { c with windSeries := series, particles := seedParticles b rs }

/-- Position inside the bounds box (spec: `[west,east] × [south,north]`). -/
def inBounds (b : Bounds) (p : Particle) : Prop :=
  b.west ≤ p.lon ∧ p.lon ≤ b.east ∧ b.south ≤ p.lat ∧ p.lat ≤ b.north

instance (b : Bounds) (p : Particle) : Decidable (inBounds b p) := by
  unfold inBounds
  infer_instance

/-- A freshly mounted component: fresh style, nothing selected or cached. -/
def initialC : CState :=
  { map := freshStyle, highlightData := none, show3D := false, windSeries := [],
    particles := [], selectedCity := none, fetchCount := 0 }

/-- Component state right after a basemap swap while 3D mode is active and
no highlight is stored: the input of the C2 counterexample. -/
def c2In : CState :=
  { map := freshStyle, highlightData := none, show3D := true,
    windSeries := [⟨90, 4⟩], particles := [], selectedCity := some "Paris", fetchCount := 1 }

/-- Concrete map bounds for the simulation re-run scenario. -/
def c4Bounds : Bounds := { west := 0, east := 1, south := 0, north := 1 }

/-- Component state with an active 2D arrow renderer whose single particle
sits at a recognizable position: the input of the C4 counterexample. -/
def c4Old : CState :=
  { map := freshStyle, highlightData := none, show3D := false,
    windSeries := [{ direction_deg := 0, speed_ms := 1 }],
    particles := [{ lon := 500, lat := 0, age := 5 }],
    selectedCity := some "Paris", fetchCount := 1 }

/-- Component state holding a cached boundary feature (id 3) for the
restore-after-swap scenario. -/
def cParis : CState :=
  { map := freshStyle, highlightData := some 3, show3D := false, windSeries := [],
    particles := [], selectedCity := some "Paris", fetchCount := 1 }

/-- Engine `addSource` with its failure mode made explicit: mapbox-gl
throws when a source with the same id already exists. -/
def addSourceE (s : MapState) (id : String) (d : Option ℕ) : Except String MapState :=
  if getSourceB s id then Except.error "there is already a source with this id"
  else Except.ok (addSource s id d)

/-- Engine `addLayer(layer, beforeId)` with its failure mode made explicit:
mapbox-gl throws when a layer with the same id already exists. -/
def addLayerBeforeE (s : MapState) (id before : String) : Except String MapState :=
  if getLayerB s id then Except.error "there is already a layer with this id"
  else Except.ok (addLayerBefore s id before)

/-- Engine `removeLayer(id)` with its failure mode made explicit: mapbox-gl
reports an error when the layer does not exist. -/
def removeLayerE (s : MapState) (id : String) : Except String MapState :=
  if getLayerB s id then Except.ok (removeLayer s id)
  else Except.error "the layer does not exist in the style"

/-- `ensureTerrain` against the error-reporting engine interface. -/
def ensureTerrainE (s : MapState) : Except String MapState :=
  if getSourceB s "mapbox-dem" then Except.ok (setTerrain s "mapbox-dem")
  else Except.map (fun t => setTerrain t "mapbox-dem") (addSourceE s "mapbox-dem" none)

/-- `add3DBuildings` against the error-reporting engine interface. -/
def add3DBuildingsE (s : MapState) : Except String MapState :=
  if getLayerB s "3d-buildings" || !getSourceB s "composite" then Except.ok s
  else addLayerBeforeE s "3d-buildings" "waterway-label"

/-- `add3DLayer` against the error-reporting engine interface. -/
def add3DLayerE (s : MapState) : Except String MapState :=
  if getLayerB s threeLayerId then Except.ok s
  else addLayerBeforeE s threeLayerId "waterway-label"

/-- `remove3DLayer` against the error-reporting engine interface. -/
def remove3DLayerE (s : MapState) : Except String MapState :=
  if getLayerB s threeLayerId then removeLayerE s threeLayerId else Except.ok s

/-- The camera mode axis of the orbit controller (`modeRef`). -/
inductive Mode
  | globe
  | focus
deriving DecidableEq, Repr

/-- The per-frame bearing increment of `animateOrbit` in the wind-slider
GlobeMap variant: `modeRef.current === "globe" ? 0.05 : 0.2`. -/
def orbitStep : Mode → ℚ
  | Mode.globe => 1 / 20
  | Mode.focus => 1 / 5

/-- One `animateOrbit` frame: while unpaused the bearing advances by the
mode's step and the result is committed via `jumpTo`; while paused nothing
changes. -/
def tickBearing (m : Mode) (rotating : Bool) (b : ℚ) : ℚ :=
  if rotating then b + orbitStep m else b

/-- The accumulated `bearingRef` after `n` consecutive unpaused frames. -/
def bearingAfter (m : Mode) : ℕ → ℚ → ℚ
  | 0, b => b
  | Nat.succ n, b => bearingAfter m n (tickBearing m true b)

/-- Modelled from the spec: the mapping engine (an external collaborator)
normalizes a committed camera bearing modulo 360 degrees — "tick() advances
bearing …, wrapping modulo 360°".  `wrap360 b` is the representative of `b`
in `[0, 360)`. -/
def wrap360 (b : ℚ) : ℚ := b - 360 * (⌊b / 360⌋ : ℤ)

/-- The engine-side camera bearing after `n` unpaused orbit frames. -/
def committedBearing (m : Mode) (n : ℕ) (b0 : ℚ) : ℚ :=
  wrap360 (bearingAfter m n b0)

/-- The resume delay of `pauseOrbit` (`setTimeout(…, 5000)`), in ms. -/
def resumeDelayMs : ℕ := 5000

/-- The orbit controller's pause state: the rotation flag (`rotatingRef`)
and the pending resume timer's absolute deadline (`resumeTimerRef`). -/
structure OrbitCtl where
  rotating : Bool
  deadline : Option ℕ
deriving DecidableEq, Repr

/-- `pauseOrbit` called at absolute time `t`: stop rotating, clear any
pending resume timer and schedule a fresh one `resumeDelayMs` later. -/
def pauseOrbitAt (t : ℕ) (_s : OrbitCtl) : OrbitCtl :=
  { rotating := false, deadline := some (t + resumeDelayMs) }

/-- The resume timer's callback (`rotatingRef.current = true`). -/
def resumeOrbit (s : OrbitCtl) : OrbitCtl :=
  { s with rotating := true }

/-- The controller state observed at absolute time `t` given no further
interaction: the platform fires the pending timer once its deadline has
passed, and an elapsed timer is gone. -/
def observeAt (t : ℕ) (s : OrbitCtl) : OrbitCtl :=
  match s.deadline with
  | some d => if d ≤ t then { rotating := true, deadline := none } else s
  | none => s

end GlobeMap

namespace WindLayer

/-- A particle of the deck.gl WindLayer. -/
structure WParticle where
  lon : ℚ
  lat : ℚ
deriving DecidableEq, Repr

/-- One particle of `initializeState`:
`lon = Math.random() * 360 - 180`, `lat = Math.random() * 180 - 90`. -/
def initParticle (r1 r2 : ℚ) : WParticle :=
  { lon := r1 * 360 - 180, lat := r2 * 180 - 90 }

/-- The random per-axis displacement of `updateParticles`:
`(Math.random() - 0.5) * 2`. -/
def perturb (r : ℚ) : ℚ := (r - 1 / 2) * 2

/-- The longitude wrap of `updateParticles`: the source's two sequential
`if`s (`> 180` then `-= 360`; `< -180` then `+= 360`) coincide with this
nested conditional, because `x - 360 ≥ -180` whenever `x > 180`. -/
def wrapLon (x : ℚ) : ℚ :=
  if x > 180 then x - 360 else if x < -180 then x + 360 else x

/-- The latitude wrap of `updateParticles`: `> 90` jumps to `-90`, `< -90`
jumps to `90` (again sequential `if`s whose first branch never triggers the
second). -/
def wrapLat (x : ℚ) : ℚ :=
  if x > 90 then (-90 : ℚ) else if x < -90 then (90 : ℚ) else x

/-- The per-particle body of `updateParticles`: perturb both coordinates,
then wrap around the globe. -/
def updateParticle (dlon dlat : ℚ) (p : WParticle) : WParticle :=
  { lon := wrapLon (p.lon + dlon), lat := wrapLat (p.lat + dlat) }

/-- `updateParticles` over the whole particle array, with per-index random
displacements. -/
def updateParticles (dl : ℕ → ℚ × ℚ) (ps : List WParticle) : List WParticle :=
  ((List.range ps.length).zip ps).map (fun iq =>
    updateParticle (dl iq.1).1 (dl iq.1).2 iq.2)

/-- The invariant of the claim: coordinates inside the geographic box. -/
def inRange (p : WParticle) : Prop :=
  -180 ≤ p.lon ∧ p.lon ≤ 180 ∧ -90 ≤ p.lat ∧ p.lat ≤ 90

instance (p : WParticle) : Decidable (inRange p) := by
  unfold inRange
  infer_instance

end WindLayer

namespace GlobeMap

theorem mem_insertBefore (x id before : String) (ls : List String) :
    x ∈ insertBefore id before ls ↔ x = id ∨ x ∈ ls := by
  induction ls with
  | nil => simp [insertBefore]
  | cons l ls ih =>
    unfold insertBefore
    by_cases h : l = before
    · simp [h]
    · simp [h, ih]
      tauto

theorem getLayerB_addLayerBefore_self (s : MapState) (id before : String) :
    getLayerB (addLayerBefore s id before) id = true := by
  simp [getLayerB, addLayerBefore, mem_insertBefore]

theorem getLayerB_removeLayer_self (s : MapState) (id : String) :
    getLayerB (removeLayer s id) id = false := by
  simp [getLayerB, removeLayer, List.mem_filter]

theorem getSourceB_addSource_self (s : MapState) (id : String) (d : Option ℕ) :
    getSourceB (addSource s id d) id = true := by
  simp [getSourceB, addSource]

theorem getLayerB_add3DLayer_self (s : MapState) :
    getLayerB (add3DLayer s) threeLayerId = true := by
  unfold add3DLayer
  by_cases h : getLayerB s threeLayerId = true
  · simp [h]
  · simp [h, getLayerB_addLayerBefore_self]

theorem find?_eq_of_forall_not {α : Type} (p : α → Bool) (l1 l2 : List α)
    (h : ∀ a ∈ l1, p a = false) : (l1 ++ l2).find? p = l2.find? p := by
  induction l1 with
  | nil => simp
  | cons a l ih =>
    have ha : ¬ p a = true := by simp [h a (List.mem_cons_self a l)]
    rw [List.cons_append, List.find?_cons_of_neg _ ha]
    exact ih (fun x hx => h x (List.mem_cons_of_mem a hx))

theorem not_mem_clearHighlight_sources (s : MapState) :
    "highlight" ∉ (clearHighlightMap s).sources.map Prod.fst := by
  unfold clearHighlightMap
  by_cases h : getSourceB (removeIfLayer (removeIfLayer s "highlight-fill") "highlight-outline")
      "highlight" = true
  · rw [if_pos h]
    simp [removeSource, List.mem_filter]
  · rw [if_neg h]
    simpa [getSourceB] using h

theorem sourceData_addHighlightLayer (f : ℕ) (s : MapState) :
    sourceData (addHighlightLayer f s) "highlight" = some (some f) := by
  unfold addHighlightLayer sourceData addLayer addSource
  simp only
  rw [find?_eq_of_forall_not]
  · rfl
  · intro a ha
    have hne : a.1 ≠ "highlight" := by
      intro hcontra
      exact not_mem_clearHighlight_sources s (by
        rw [List.mem_map]
        exact ⟨a, ha, hcontra⟩)
    simp [hne]

theorem getLayerB_addHighlightLayer_fill (f : ℕ) (s : MapState) :
    getLayerB (addHighlightLayer f s) "highlight-fill" = true := by
  simp [addHighlightLayer, addLayer, getLayerB]

theorem getLayerB_addHighlightLayer_outline (f : ℕ) (s : MapState) :
    getLayerB (addHighlightLayer f s) "highlight-outline" = true := by
  simp [addHighlightLayer, addLayer, getLayerB]

theorem bearingAfter_eq (m : Mode) (n : ℕ) (b0 : ℚ) :
    bearingAfter m n b0 = b0 + n * orbitStep m := by
  induction n generalizing b0 with
  | zero => simp [bearingAfter]
  | succ n ih =>
    have h : bearingAfter m (n + 1) b0 = bearingAfter m n (tickBearing m true b0) := rfl
    rw [h, ih, tickBearing]
    simp only [if_pos]
    push_cast
    ring

end GlobeMap

namespace GlobeMap

/-- C1: the claim states that after `setHighlight(f)`, `clearHighlight()`
(`resetGlobe`), a style reload and `restore()`, no highlight layers exist,
because clearing nulls the stored feature.  The flow-renderer variant's
`resetGlobe` removes the layers and source but leaves `highlightDataRef`
set, so the subsequent reload's `restore()` re-attaches both highlight
layers — the code contradicts the claim (and the spec's invariant), while
the chart-only variant's `resetGlobe`, which does null the ref, satisfies
it. -/
theorem c1_reset_highlight_divergence :
    (resetGlobe (fetchBoundarySuccess 7 initialC)).highlightData = some 7
  ∧ getLayerB (resetGlobe (fetchBoundarySuccess 7 initialC)).map "highlight-fill" = false
  ∧ getLayerB (resetGlobe (fetchBoundarySuccess 7 initialC)).map "highlight-outline" = false
  ∧ getLayerB (styleReloadC (resetGlobe (fetchBoundarySuccess 7 initialC))).map
      "highlight-fill" = true
  ∧ getLayerB (styleReloadC (resetGlobe (fetchBoundarySuccess 7 initialC))).map
      "highlight-outline" = true
  ∧ (resetGlobeLegacy (fetchBoundarySuccess 7 initialC)).highlightData = none
  ∧ getLayerB (styleSwapRestoreLegacy (resetGlobeLegacy (fetchBoundarySuccess 7 initialC))).map
      "highlight-fill" = false
  ∧ getLayerB (styleSwapRestoreLegacy (resetGlobeLegacy (fetchBoundarySuccess 7 initialC))).map
      "highlight-outline" = false := by
  decide

/-- C2 counterexample: with 3D mode active and the custom layer discarded
by a basemap swap, the `style.load` handler does not re-register the
`flux-3d-particles` layer, refuting the claim's "and, when 3D mode is
active, the active flow renderer's custom engine layer". -/
theorem c2_counterexample :
    ¬ (c2In.show3D = true → getLayerB (onStyleLoadC c2In).map threeLayerId = true) := by
  decide

/-- C2 (amended): on each firing of `style.load` the handler replays, in
order, the terrain source (`mapbox-dem` plus `setTerrain`), the building
extrusion layer (`3d-buildings`), and the stored highlight feature when one
is present; the 3D custom layer is not re-attached by this handler. -/
theorem c2_style_reload_replay (hd : Option ℕ) :
    getSourceB (onStyleLoadMap hd freshStyle) "mapbox-dem" = true
  ∧ (onStyleLoadMap hd freshStyle).terrain = some "mapbox-dem"
  ∧ getLayerB (onStyleLoadMap hd freshStyle) "3d-buildings" = true
  ∧ (hd = none →
       onStyleLoadMap hd freshStyle = add3DBuildings (ensureTerrain freshStyle)
     ∧ getLayerB (onStyleLoadMap hd freshStyle) "highlight-fill" = false)
  ∧ (∀ f, hd = some f →
       getLayerB (onStyleLoadMap hd freshStyle) "highlight-fill" = true
     ∧ getLayerB (onStyleLoadMap hd freshStyle) "highlight-outline" = true
     ∧ sourceData (onStyleLoadMap hd freshStyle) "highlight" = some (some f))
  ∧ getLayerB (onStyleLoadMap hd freshStyle) threeLayerId = false := by
  cases hd with
  | none =>
    refine ⟨rfl, rfl, rfl, fun _ => ⟨rfl, rfl⟩, ?_, rfl⟩
    intro f hf
    exact Option.noConfusion hf
  | some f =>
    refine ⟨rfl, rfl, rfl, ?_, ?_, rfl⟩
    · intro h
      exact Option.noConfusion h
    · intro g hg
      rw [Option.some.injEq] at hg
      subst hg
      exact ⟨rfl, rfl, rfl⟩

/-- C2 witness: the amended replay at a concrete stored feature. -/
theorem c2_witness :
    getLayerB (onStyleLoadMap (some 3) freshStyle) "highlight-fill" = true :=
  ((c2_style_reload_replay (some 3)).2.2.2.2.1 3 rfl).1

/-- C3: over any run of `n` consecutive unpaused orbit frames the bearing
committed to the engine's camera is `(b0 + n * step) mod 360`, where the
step is the slow constant `0.05` in globe mode and the faster `0.2` in
focus mode. -/
theorem c3_orbit_bearing (m : Mode) (n : ℕ) (b0 : ℚ) :
    committedBearing m n b0 = wrap360 (b0 + n * orbitStep m)
  ∧ orbitStep Mode.globe = 1 / 20
  ∧ orbitStep Mode.focus = 1 / 5
  ∧ orbitStep Mode.globe < orbitStep Mode.focus := by
  refine ⟨?_, rfl, rfl, by norm_num [orbitStep]⟩
  unfold committedBearing
  rw [bearingAfter_eq]

/-- C4 counterexample: re-running the simulation in 2D mode re-seeds the
particle array, refuting the claim that the renderer's particle state is
left unchanged. -/
theorem c4_counterexample :
    (runSimulationSuccess [⟨90, 4⟩] c4Bounds [(0, 0, 0)] c4Old).particles
      ≠ c4Old.particles := by
  norm_num [runSimulationSuccess, c4Old, c4Bounds, seedParticles, seedParticle,
    Particle.mk.injEq]

/-- C4 (amended): re-running the simulation replaces the stored wind-frame
sequence and re-initializes the active renderer: in 2D mode the particle
array is re-seeded from fresh random draws (the map untouched), in 3D mode
the custom layer is removed and immediately re-registered. -/
theorem c4_rerun_reinitializes (series : List FlowFrame) (b : Bounds)
    (rs : List (ℚ × ℚ × ℚ)) (c : CState) :
    (runSimulationSuccess series b rs c).windSeries = series
  ∧ (runSimulationSuccess series b rs c).highlightData = c.highlightData
  ∧ (c.show3D = false →
       (runSimulationSuccess series b rs c).particles = seedParticles b rs
     ∧ (runSimulationSuccess series b rs c).map = c.map)
  ∧ (c.show3D = true →
       (runSimulationSuccess series b rs c).map = add3DLayer (remove3DLayer c.map)
     ∧ getLayerB (runSimulationSuccess series b rs c).map threeLayerId = true) := by
  by_cases h : c.show3D <;>
    simp [runSimulationSuccess, h, getLayerB_add3DLayer_self]

/-- C4 witness: the amended behavior at the concrete 2D re-run. -/
theorem c4_witness :
    (runSimulationSuccess [⟨90, 4⟩] c4Bounds [(0, 0, 0)] c4Old).particles
      = seedParticles c4Bounds [(0, 0, 0)] :=
  ((c4_rerun_reinitializes [⟨90, 4⟩] c4Bounds [(0, 0, 0)] c4Old).2.2.1 rfl).1

/-- C5: on every repaint of the 2D arrow renderer each drawn segment
carries the heading `(direction_deg + 180) mod 360` (in degrees, converted
to radians by the source before the trigonometry) and the length
`min(18, speed_ms * 0.5)` of the frame selected by the wrapping cursor; at
`wind_series = [{direction_deg: 90, speed_ms: 4}]` this is 270 degrees and
length 2. -/
theorem c5_draw_heading_length (b : Bounds) (proj : ℚ × ℚ → ℚ × ℚ)
    (dlon dlat : ℚ) (resp : ℕ → ℚ × ℚ) (frames : List FlowFrame)
    (cursor : ℕ) (ps : List Particle) :
    (∀ seg ∈ (drawStep false b proj dlon dlat resp frames cursor ps).segs,
        seg.hdgDeg
          = jsRem ((frames.getD (cursor % frames.length) ⟨0, 0⟩).direction_deg + 180) 360
      ∧ seg.len = min 18 ((frames.getD (cursor % frames.length) ⟨0, 0⟩).speed_ms * (1 / 2)))
  ∧ (∀ seg ∈ (drawStep false b proj dlon dlat resp [⟨90, 4⟩] 0 ps).segs,
        seg.hdgDeg = 270 ∧ seg.len = 2) := by
  have h270 : headingDeg 90 = 270 := by
    rw [headingDeg, jsRem, ratTrunc, if_pos (by norm_num : (0 : ℚ) ≤ ((90 : ℚ) + 180) / 360)]
    rw [show ⌊((90 : ℚ) + 180) / 360⌋ = 0 from by
      rw [Int.floor_eq_iff]
      constructor <;> norm_num]
    norm_num
  have hlen : arrowLen 4 = 2 := by
    rw [arrowLen]
    norm_num [min_def]
  constructor
  · intro seg hseg
    by_cases h : frames.isEmpty
    · simp [drawStep, h] at hseg
    · simp only [drawStep] at hseg
      rw [if_neg (by simp [h])] at hseg
      simp only [List.mem_map] at hseg
      obtain ⟨p, _, rfl⟩ := hseg
      exact ⟨rfl, rfl⟩
  · intro seg hseg
    simp only [drawStep] at hseg
    rw [if_neg (by simp)] at hseg
    simp only [List.mem_map] at hseg
    obtain ⟨p, _, rfl⟩ := hseg
    exact ⟨h270, hlen⟩

/-- C5 witness: the concrete one-frame repaint. -/
theorem c5_witness :
    ∀ seg ∈ (drawStep false ⟨0, 1, 0, 1⟩ (fun xy => xy) 0 0 (fun _ => (0, 0))
        [⟨90, 4⟩] 0 [⟨0, 0, 0⟩]).segs,
      seg.hdgDeg = 270 ∧ seg.len = 2 :=
  (c5_draw_heading_length ⟨0, 1, 0, 1⟩ (fun xy => xy) 0 0 (fun _ => (0, 0))
    [⟨90, 4⟩] 0 [⟨0, 0, 0⟩]).2

end GlobeMap

namespace GlobeMap

/-- C6: a repaint resets a particle's age to 0 and resamples its position
inside the current bounds exactly when the incremented age exceeds the cap
300 (otherwise the particle merely drifts and ages), and every position
assigned at spawn time — the initial seeding as well as a respawn — lies
within `[west,east] × [south,north]` of the bounds current at that
moment. -/
theorem c6_particle_respawn (b : Bounds) (dlon dlat r1 r2 r3 : ℚ) (p : Particle)
    (hwe : b.west ≤ b.east) (hsn : b.south ≤ b.north)
    (hr1 : 0 ≤ r1 ∧ r1 < 1) (hr2 : 0 ≤ r2 ∧ r2 < 1) (hr3 : 0 ≤ r3 ∧ r3 < 1)
    (hage : 0 ≤ p.age) :
    ((updateParticle b dlon dlat r1 r2 p).age = 0 ↔ p.age + 1 > 300)
  ∧ (p.age + 1 > 300 → inBounds b (updateParticle b dlon dlat r1 r2 p))
  ∧ (¬ p.age + 1 > 300 →
       updateParticle b dlon dlat r1 r2 p
         = { lon := p.lon + dlon, lat := p.lat + dlat, age := p.age + 1 })
  ∧ inBounds b (seedParticle b r1 r2 r3) := by
  have hlon1 : b.west ≤ b.west + r1 * (b.east - b.west) := by nlinarith [hr1.1]
  have hlon2 : b.west + r1 * (b.east - b.west) ≤ b.east := by nlinarith [hr1.2]
  have hlat1 : b.south ≤ b.south + r2 * (b.north - b.south) := by nlinarith [hr2.1]
  have hlat2 : b.south + r2 * (b.north - b.south) ≤ b.north := by nlinarith [hr2.2]
  refine ⟨?_, ?_, ?_, ?_⟩
  · by_cases hc : p.age + 1 > 300
    · simp [updateParticle, hc]
    · have hval : (updateParticle b dlon dlat r1 r2 p).age = p.age + 1 := by
        simp [updateParticle, hc]
      rw [hval]
      constructor
      · intro h0
        linarith
      · intro h0
        exact absurd h0 hc
  · intro hc
    simp only [updateParticle, if_pos hc]
    exact ⟨hlon1, hlon2, hlat1, hlat2⟩
  · intro hc
    simp [updateParticle, hc]
  · simp only [inBounds, seedParticle]
    exact ⟨hlon1, hlon2, hlat1, hlat2⟩

/-- C6 witness: seeding inside the unit bounds box. -/
theorem c6_witness :
    inBounds ⟨0, 1, 0, 1⟩ (seedParticle ⟨0, 1, 0, 1⟩ (1 / 2) (1 / 2) (1 / 2)) :=
  (c6_particle_respawn ⟨0, 1, 0, 1⟩ 0 0 (1 / 2) (1 / 2) (1 / 2) ⟨5, 5, 350⟩
    (by norm_num) (by norm_num) (by norm_num) (by norm_num) (by norm_num)
    (by norm_num)).2.2.2

/-- C7: `restore()` re-attaches the highlight fill and outline layers
sourced from the cached feature without touching the fetch counter (no
second boundary request), and is a no-op when no feature is stored. -/
theorem c7_restore_highlight (c : CState) :
    (restoreHighlightC c).fetchCount = c.fetchCount
  ∧ (restoreHighlightC c).highlightData = c.highlightData
  ∧ (c.highlightData = none → restoreHighlightC c = c)
  ∧ (∀ f, c.highlightData = some f →
       (restoreHighlightC c).map = addHighlightLayer f c.map
     ∧ getLayerB (restoreHighlightC c).map "highlight-fill" = true
     ∧ getLayerB (restoreHighlightC c).map "highlight-outline" = true
     ∧ sourceData (restoreHighlightC c).map "highlight" = some (some f)) := by
  refine ⟨?_, ?_, ?_, ?_⟩
  · cases h : c.highlightData <;> simp [restoreHighlightC, h]
  · cases h : c.highlightData <;> simp [restoreHighlightC, h]
  · intro h
    simp [restoreHighlightC, h]
  · intro f hf
    simp [restoreHighlightC, hf, getLayerB_addHighlightLayer_fill,
      getLayerB_addHighlightLayer_outline, sourceData_addHighlightLayer]

/-- C7 witness: restoring the cached Paris boundary (feature id 3). -/
theorem c7_witness :
    sourceData (restoreHighlightC cParis).map "highlight" = some (some 3) :=
  ((c7_restore_highlight cParis).2.2.2 3 rfl).2.2.2

/-- C8: after `pauseOrbit` at time `t1` with no further interaction the
rotation flag turns back on exactly `resumeDelayMs` later and not before; a
second `pauseOrbit` before the timer fires replaces the pending timer, so
rotation stays off until `resumeDelayMs` after the last pause; the resume
callback is idempotent. -/
theorem c8_pause_resume (s s' : OrbitCtl) (t1 t2 u v : ℕ)
    (hu : u < t1 + resumeDelayMs) (hv : v < t2 + resumeDelayMs) :
    (pauseOrbitAt t1 s).rotating = false
  ∧ (pauseOrbitAt t1 s).deadline = some (t1 + resumeDelayMs)
  ∧ (observeAt u (pauseOrbitAt t1 s)).rotating = false
  ∧ observeAt (t1 + resumeDelayMs) (pauseOrbitAt t1 s)
      = { rotating := true, deadline := none }
  ∧ (pauseOrbitAt t2 (pauseOrbitAt t1 s)).deadline = some (t2 + resumeDelayMs)
  ∧ (observeAt v (pauseOrbitAt t2 (pauseOrbitAt t1 s))).rotating = false
  ∧ observeAt (t2 + resumeDelayMs) (pauseOrbitAt t2 (pauseOrbitAt t1 s))
      = { rotating := true, deadline := none }
  ∧ resumeOrbit (resumeOrbit s') = resumeOrbit s' := by
  refine ⟨rfl, rfl, ?_, ?_, rfl, ?_, ?_, rfl⟩
  · simp [observeAt, pauseOrbitAt, Nat.not_le.mpr hu]
  · simp [observeAt, pauseOrbitAt]
  · simp [observeAt, pauseOrbitAt, Nat.not_le.mpr hv]
  · simp [observeAt, pauseOrbitAt]

/-- C8 witness: a pause at 0 re-paused at 3000, observed at 4999 ms. -/
theorem c8_witness :
    (observeAt 4999 (pauseOrbitAt 0 { rotating := true, deadline := none })).rotating
      = false :=
  (c8_pause_resume { rotating := true, deadline := none }
    { rotating := true, deadline := none } 0 3000 4999 7999
    (by norm_num [resumeDelayMs]) (by norm_num [resumeDelayMs])).2.2.1

/-- C9: each attachment operation never reports an engine error (the
guards make the duplicate-id and missing-id cases no-ops), each is
idempotent, `ensureTerrain` leaves the source and layer registries
unchanged when `mapbox-dem` already exists, and the add/remove wrappers
are the identity when their guard fails. -/
theorem c9_idempotent_replay (s : MapState) :
    ensureTerrainE s = Except.ok (ensureTerrain s)
  ∧ add3DBuildingsE s = Except.ok (add3DBuildings s)
  ∧ add3DLayerE s = Except.ok (add3DLayer s)
  ∧ remove3DLayerE s = Except.ok (remove3DLayer s)
  ∧ ensureTerrain (ensureTerrain s) = ensureTerrain s
  ∧ add3DBuildings (add3DBuildings s) = add3DBuildings s
  ∧ add3DLayer (add3DLayer s) = add3DLayer s
  ∧ remove3DLayer (remove3DLayer s) = remove3DLayer s
  ∧ (getSourceB s "mapbox-dem" = true →
       (ensureTerrain s).sources = s.sources ∧ (ensureTerrain s).layers = s.layers)
  ∧ (getLayerB s "3d-buildings" = true → add3DBuildings s = s)
  ∧ (getLayerB s threeLayerId = true → add3DLayer s = s)
  ∧ (getLayerB s threeLayerId = false → remove3DLayer s = s) := by
  have hsetSrc : ∀ (x : MapState) (src id : String),
      getSourceB (setTerrain x src) id = getSourceB x id := fun _ _ _ => rfl
  have hsetIdem : ∀ (x : MapState) (a a' : String),
      setTerrain (setTerrain x a) a' = setTerrain x a' := fun _ _ _ => rfl
  refine ⟨?_, ?_, ?_, ?_, ?_, ?_, ?_, ?_, ?_, ?_, ?_, ?_⟩
  · by_cases h : getSourceB s "mapbox-dem" <;>
      simp [ensureTerrainE, ensureTerrain, addSourceE, h, Except.map]
  · by_cases h1 : getLayerB s "3d-buildings" <;>
      by_cases h2 : getSourceB s "composite" <;>
        simp [add3DBuildingsE, add3DBuildings, addLayerBeforeE, h1, h2]
  · by_cases h : getLayerB s threeLayerId <;>
      simp [add3DLayerE, add3DLayer, addLayerBeforeE, h]
  · by_cases h : getLayerB s threeLayerId <;>
      simp [remove3DLayerE, remove3DLayer, removeLayerE, h]
  · by_cases h : getSourceB s "mapbox-dem" <;>
      simp [ensureTerrain, hsetSrc, hsetIdem, h, getSourceB_addSource_self]
  · by_cases h1 : getLayerB s "3d-buildings"
    · simp [add3DBuildings, h1]
    · by_cases h2 : getSourceB s "composite"
      · simp [add3DBuildings, h1, h2, getLayerB_addLayerBefore_self]
      · simp [add3DBuildings, h1, h2]
  · by_cases h : getLayerB s threeLayerId <;>
      simp [add3DLayer, h, getLayerB_addLayerBefore_self]
  · by_cases h : getLayerB s threeLayerId <;>
      simp [remove3DLayer, h, getLayerB_removeLayer_self]
  · intro h
    simp [ensureTerrain, h, setTerrain]
  · intro h
    simp [add3DBuildings, h]
  · intro h
    simp [add3DLayer, h]
  · intro h
    simp [remove3DLayer, h]

/-- C9 witness: removing the unregistered 3D layer on a fresh style is a
no-op. -/
theorem c9_witness : remove3DLayer freshStyle = freshStyle :=
  (c9_idempotent_replay freshStyle).2.2.2.2.2.2.2.2.2.2.2 rfl

end GlobeMap

namespace WindLayer

theorem wrapLon_mem (x : ℚ) (h1 : -181 ≤ x) (h2 : x ≤ 181) :
    -180 ≤ wrapLon x ∧ wrapLon x ≤ 180 := by
  unfold wrapLon
  split_ifs <;> constructor <;> linarith

theorem wrapLat_mem (x : ℚ) (h1 : -91 ≤ x) (h2 : x ≤ 91) :
    -90 ≤ wrapLat x ∧ wrapLat x ≤ 90 := by
  unfold wrapLat
  split_ifs <;> constructor <;> linarith

/-- C10: if a particle satisfies the coordinate invariant before an
`updateParticles` step whose per-axis displacement is at most one degree in
absolute value, it satisfies it after the perturb-and-wrap step; the
source's actual displacement `(Math.random() - 0.5) * 2` obeys that bound,
and `initializeState` establishes the invariant. -/
theorem c10_wind_particle_bounds (p : WParticle) (dlon dlat r1 r2 : ℚ)
    (hp : inRange p)
    (hdlon : -1 ≤ dlon ∧ dlon ≤ 1) (hdlat : -1 ≤ dlat ∧ dlat ≤ 1)
    (hr1 : 0 ≤ r1 ∧ r1 < 1) (hr2 : 0 ≤ r2 ∧ r2 < 1) :
    inRange (updateParticle dlon dlat p)
  ∧ (-1 ≤ perturb r1 ∧ perturb r1 ≤ 1)
  ∧ inRange (initParticle r1 r2) := by
  obtain ⟨ha, hb, hc, hd⟩ := hp
  have hlon := wrapLon_mem (p.lon + dlon) (by linarith [hdlon.1]) (by linarith [hdlon.2])
  have hlat := wrapLat_mem (p.lat + dlat) (by linarith [hdlat.1]) (by linarith [hdlat.2])
  refine ⟨⟨hlon.1, hlon.2, hlat.1, hlat.2⟩, ?_, ?_⟩
  · unfold perturb
    constructor <;> linarith [hr1.1, hr1.2]
  · unfold inRange initParticle
    refine ⟨?_, ?_, ?_, ?_⟩ <;> dsimp only <;> linarith [hr1.1, hr1.2, hr2.1, hr2.2]

/-- C10 witness: a particle at the origin perturbed by a full degree. -/
theorem c10_witness : inRange (updateParticle 1 (-1) ⟨0, 0⟩) :=
  (c10_wind_particle_bounds ⟨0, 0⟩ 1 (-1) 0 (1 / 2)
    (by refine ⟨by norm_num, by norm_num, by norm_num, by norm_num⟩)
    (by norm_num) (by norm_num) (by norm_num) (by norm_num)).1

end WindLayer
